import Mathlib

/-!
Shallow embedding of the `immutable_arena` crate (`src/lib.rs`).

Memory model: machine addresses are natural numbers, with `0` playing the
role of the null pointer (`0 as *mut T` in the source). A `Ref<'arena, T>`
cell is a word of memory holding a single pointer (`AtomicPtr<T>`); since
cells are identified by their address (`self as *const Ref` in `Ref::set`),
we model the store of all cells as a function `Cells : Nat → Nat` from
cell addresses to the pointer value each cell currently holds.

Objects of the test payload type `BasicTest` (an `id` plus two embedded
`Ref` cells `a` and `b`) live in an object heap `Objs : Nat → Option
BasicTest`; the record stores the addresses of its two embedded cells.

All operations are translated directly from the source:
- `Ref::empty` initialises a cell to the null pointer;
- `Ref::set` pushes a `RefAssignment` onto the builder queue whose `from`
  field is the cell's own address and whose `to` field is
  `self.ptr.load(Ordering::Relaxed)` — the value currently stored in the
  cell *being assigned* (this is what the source writes, and it is the
  pivotal fact for several theorems below);
- `Builder::drop` drains the queue in order, performing
  `compare_and_swap(null, to)` on each named cell and panicking
  (modelled as `Except.error`) when the swapped-out value is non-null;
- `Builder::freeze` repackages the handle's pointer, copying no data;
- `Deref for Ref` loads the stored pointer and transmutes it, with no
  null check;
- `Clone for Ref` builds a fresh cell holding the loaded pointer value.
-/

/-- The store of `Ref` cells: cell address to the pointer value held. -/
def Cells : Type := Nat → Nat

/-- Payload type of the crate's own test (`struct BasicTest`): an `id`
field plus two embedded `Ref` cells, represented by their addresses. -/
structure BasicTest where
  id : Nat
  a : Nat
  b : Nat
deriving DecidableEq, Repr

/-- The object heap for the `BasicTest` payload: object address to payload. -/
def Objs : Type := Nat → Option BasicTest

/-- A queued deferred assignment (`struct RefAssignment`): `from` is the
address of the `Ref` cell being assigned (`*const Ref<'arena, T>`), `to`
is the pointer value recorded for it (`*const T`). Field names carry a
trailing underscore because `from` is a Lean keyword. -/
structure RefAssignment where
  from_ : Nat
  to_ : Nat
deriving DecidableEq, Repr

/-- The builder of one construction session (`struct Builder`): the
mutex-protected `SmallVec` of pending assignments, as a list in push
order. -/
structure BuilderState where
  assignments : List RefAssignment
deriving DecidableEq, Repr

/-- A construction handle (`struct BuilderRef`): the address of the
freshly allocated object it wraps (`ptr: &'arena mut T`). The handle's
tie to the session builder (`builder: &'builder Builder`) is expressed by
passing the `BuilderState` explicitly to the operations that use it. -/
structure BuilderRefM where
  ptr : Nat
deriving DecidableEq, Repr

/-- A `Ref` value held outside the arena (e.g. one returned by
`Builder::freeze`): its loaded pointer value. Cells embedded in arena
objects are instead addressed through `Cells`. -/
structure RefM where
  ptr : Nat
deriving DecidableEq, Repr

/-- `Ref::empty()`: a cell holding the null pointer (`AtomicPtr::new(0)`). -/
def Ref.emptyPtr : Nat := 0

/-- `Ref::set(&'arena self, to: &BuilderRef)`: pushes onto the builder's
queue the entry `RefAssignment { from: self as *const Ref, to:
self.ptr.load(Ordering::Relaxed) }`. Note that the recorded `to` field is
the value loaded from the cell being assigned, exactly as the source
writes it; the target handle `toHandle` contributes only its builder (the
queue), not its address. -/
def Ref.set (cells : Cells) (selfAddr : Nat) (toHandle : BuilderRefM)
    (b : BuilderState) : BuilderState :=
  { b with assignments := b.assignments ++ [⟨selfAddr, cells selfAddr⟩] }

/-- One iteration of the loop in `Drop for Builder`:
`from.ptr.compare_and_swap(0, r.to)`; if the previous value is non-null
the source panics ("Attempt to re-set a Ref that has already been
set."). -/
def applyAssignment (cells : Cells) (r : RefAssignment) : Except String Cells :=
  if cells r.from_ = 0 then
    Except.ok (fun q => if q = r.from_ then r.to_ else cells q)
  else
    Except.error "Attempt to re-set a Ref that has already been set."

/-- The drain of the assignment queue performed by `Drop for Builder`,
in queue (push) order; stops with the panic of the first failing
compare-and-swap. -/
def commitAll (l : List RefAssignment) (cells : Cells) : Except String Cells :=
  match l with
  | [] => Except.ok cells
  | r :: rest =>
    match applyAssignment cells r with
    | Except.ok cells2 => commitAll rest cells2
    | Except.error e => Except.error e

/-- `Drop for Builder`: apply every queued assignment to the cell store. -/
def Builder.drop (b : BuilderState) (cells : Cells) : Except String Cells :=
  commitAll b.assignments cells

/-- `Builder::freeze(t)`: wraps the handle's pointer in a new `Ref`
(`AtomicPtr::new(t.ptr as *mut T)`); no object data is touched. -/
def Builder.freeze (t : BuilderRefM) : RefM :=
  ⟨t.ptr⟩

/-- `Arena::build(f)`: runs the session function on a fresh builder
(`assignments: Mutex::new(SmallVec::new())`), then drops the builder —
committing the queue — before returning `f`'s result. A commit panic
escapes `build`, hence the `Except`. -/
def Arena.build {R : Type} (cells : Cells) (f : BuilderState → R × BuilderState) :
    Except String (R × Cells) :=
  let out := f { assignments := [] }
  match Builder.drop out.2 cells with
  | Except.ok cells2 => Except.ok (out.1, cells2)
  | Except.error e => Except.error e

/-- `Deref for Ref` on a cell stored in the arena: load the pointer and
transmute it to a reference — the source performs no null check, so the
result is simply the loaded address. -/
def Ref.derefAddr (cells : Cells) (selfAddr : Nat) : Nat :=
  cells selfAddr

/-- Reading the object behind a cell: the loaded pointer, looked up in the
object heap (address `0` holds no object). -/
def Ref.derefObj (objs : Objs) (cells : Cells) (selfAddr : Nat) : Option BasicTest :=
  objs (Ref.derefAddr cells selfAddr)

/-- `Deref` on a `Ref` value held outside the arena (a frozen reference). -/
def RefM.derefObj (objs : Objs) (r : RefM) : Option BasicTest :=
  objs r.ptr

/-- `Clone for Ref`: a fresh cell at address `newAddr` initialised with
the pointer value loaded from the cell at `selfAddr`. -/
def Ref.clone (cells : Cells) (selfAddr newAddr : Nat) : Cells :=
  fun q => if q = newAddr then cells selfAddr else cells q

/-- The target of a `set` call as §6 of the spec describes it: either a
frozen reference or a construction handle. -/
inductive SetTarget where
  | frozen (r : RefM)
  | handle (h : BuilderRefM)
deriving DecidableEq, Repr

/-- The `set` interface the source actually exposes, lifted over
`SetTarget`: the one and only signature is
`set(&'arena self, to: &BuilderRef<'builder, 'arena, T>)`, so a handle
target is queued via `Ref.set` and a frozen-reference target has no
applicable operation (`none`). -/
def Ref.setOnTarget (cells : Cells) (selfAddr : Nat) (t : SetTarget)
    (b : BuilderState) : Option BuilderState :=
  match t with
  | SetTarget.handle h => some (Ref.set cells selfAddr h b)
  | SetTarget.frozen _ => none

/-! ## Whole-session state machine

`SessionState` bundles the typed arena's bump pointer, the object heap,
the cell store and the builder queue; the operations available inside a
`build` closure are `Builder::new` (allocation), `Ref::set` and
`Builder::freeze`. -/

/-- State visible during one `Arena::build` session. `nextAddr` is the
typed arena's bump pointer (starting at 1; address 0 is null). -/
structure SessionState where
  nextAddr : Nat
  objs : Objs
  cells : Cells
  builder : BuilderState

/-- `Builder::new(t)` for the `BasicTest` payload: bump-allocate the
object at address `p`, its embedded cells `a` and `b` at `p+1` and `p+2`,
both initialised by `Ref::empty()`; return the construction handle. -/
def allocBasic (id : Nat) (st : SessionState) : BuilderRefM × SessionState :=
  let p := st.nextAddr
  (⟨p⟩,
    { st with
      nextAddr := p + 3
      objs := fun q => if q = p then some ⟨id, p + 1, p + 2⟩ else st.objs q
      cells := fun q => if q = p + 1 then Ref.emptyPtr
               else if q = p + 2 then Ref.emptyPtr
               else st.cells q })

/-- `cell.set(&h)` performed inside a session: only the builder queue
changes. -/
def doSet (st : SessionState) (cellAddr : Nat) (h : BuilderRefM) : SessionState :=
  { st with builder := Ref.set st.cells cellAddr h st.builder }

/-- Address of the embedded cell `a` of the object behind a handle. -/
def fieldA (st : SessionState) (h : BuilderRefM) : Nat :=
  match st.objs h.ptr with
  | some o => o.a
  | none => 0

/-- Address of the embedded cell `b` of the object behind a handle. -/
def fieldB (st : SessionState) (h : BuilderRefM) : Nat :=
  match st.objs h.ptr with
  | some o => o.b
  | none => 0

/-- The operations user code can perform inside a build session. -/
inductive SessionOp where
  | opNew (id : Nat)
  | opSet (cellAddr : Nat) (h : BuilderRefM)
  | opFreeze (h : BuilderRefM)
deriving DecidableEq, Repr

/-- Effect of one in-session operation on the session state. `freeze`
only repackages a pointer, so it leaves the state untouched. -/
def stepOp (op : SessionOp) (st : SessionState) : SessionState :=
  match op with
  | SessionOp.opNew id => (allocBasic id st).2
  | SessionOp.opSet cellAddr h => doSet st cellAddr h
  | SessionOp.opFreeze _ => st

/-- The empty session state `Arena::build` starts from: nothing
allocated, every cell word null, empty queue. -/
def initialSession : SessionState :=
  { nextAddr := 1
    objs := fun _ => none
    cells := fun _ => 0
    builder := { assignments := [] } }

/-- A sequence of `set` calls issued in order during one session (the
cell store is read-only during a session, so it is a fixed parameter). -/
def performSets (cells : Cells) (ops : List (Nat × BuilderRefM))
    (b : BuilderState) : BuilderState :=
  match ops with
  | [] => b
  | (c, h) :: rest => performSets cells rest (Ref.set cells c h b)

/-! ## The crate's own test scenario (`mod test`, `basic_test`)

Three objects `x`, `y`, `z` with ids 0, 1, 2; the six `set` calls wire
`x.a→y, x.b→z, y.a→x, y.b→z, z.a→x, z.b→y`; the three handles are frozen
and the session ends. Layout produced by `allocBasic`: `x` at 1 (cells
2, 3), `y` at 4 (cells 5, 6), `z` at 7 (cells 8, 9). -/

/-- The session closure of `basic_test`: allocations, the six `set`
calls, and the three freezes, in source order. -/
def basicSession : (RefM × RefM × RefM) × SessionState :=
  let ax := allocBasic 0 initialSession
  let x := ax.1
  let ay := allocBasic 1 ax.2
  let y := ay.1
  let az := allocBasic 2 ay.2
  let z := az.1
  let st0 := az.2
  let st1 := doSet st0 (fieldA st0 x) y
  let st2 := doSet st1 (fieldB st1 x) z
  let st3 := doSet st2 (fieldA st2 y) x
  let st4 := doSet st3 (fieldB st3 y) z
  let st5 := doSet st4 (fieldA st4 z) x
  let st6 := doSet st5 (fieldB st5 z) y
  ((Builder.freeze x, Builder.freeze y, Builder.freeze z), st6)

/-- The cell store after `basic_test`'s session ends (the builder is
dropped, committing the queue); `none` would mean the commit panicked. -/
def basicFinalCells : Except String Cells :=
  Builder.drop basicSession.2.builder basicSession.2.cells

/-- Value of the cell at `addr` after the `basic_test` session, or `none`
if the commit panicked. -/
def basicCellAfter (addr : Nat) : Option Nat :=
  match basicFinalCells with
  | Except.ok h => some (h addr)
  | Except.error _ => none

/-- The value `x.a.id` that `basic_test` asserts equals 1: dereference
the frozen `x`, read its cell `a`, dereference that cell, project `id`.
`none` means the commit panicked or a dereference hit an address holding
no object. -/
def basicXaId : Option Nat :=
  match basicFinalCells with
  | Except.error _ => none
  | Except.ok h =>
    match RefM.derefObj basicSession.2.objs basicSession.1.1 with
    | none => none
    | some o => (basicSession.2.objs (h o.a)).map BasicTest.id

/-! ## Double-assignment scenario

One session allocating `x`, `y`, `z` (same layout as above) in which
`x.a` is set twice, first to `y` and then to `z`. -/

/-- A session in which the cell `x.a` (address 2) is set twice: once to
the handle of `y` (address 4) and once to the handle of `z` (address 7). -/
def doubleSetSession : SessionState :=
  let ax := allocBasic 0 initialSession
  let x := ax.1
  let ay := allocBasic 1 ax.2
  let az := allocBasic 2 ay.2
  let st0 := az.2
  let st1 := doSet st0 (fieldA st0 x) ay.1
  doSet st1 (fieldA st1 x) az.1

/-- Session end for the double-set session: drop the builder. -/
def doubleSetResult : Except String Cells :=
  Builder.drop doubleSetSession.builder doubleSetSession.cells

/-- Value of the twice-set cell (address 2) after the double-set session
ends; `none` would mean the commit panicked. -/
def doubleSetCellAfter : Option Nat :=
  match doubleSetResult with
  | Except.ok h => some (h 2)
  | Except.error _ => none

/-! ## Helper lemmas -/

/-- Committing a concatenated queue succeeds exactly when the prefix
commits and the suffix then commits from the intermediate store. -/
theorem commitAll_append_ok (l1 l2 : List RefAssignment) (cells h : Cells)
    (hok : commitAll (l1 ++ l2) cells = Except.ok h) :
    ∃ mid, commitAll l1 cells = Except.ok mid ∧ commitAll l2 mid = Except.ok h := by
  induction l1 generalizing cells with
  | nil => exact ⟨cells, rfl, hok⟩
  | cons r rest ih =>
    rw [List.cons_append] at hok
    unfold commitAll at hok
    cases happ : applyAssignment cells r with
    | ok c2 =>
      rw [happ] at hok
      obtain ⟨mid, hmid1, hmid2⟩ := ih c2 hok
      refine ⟨mid, ?_, hmid2⟩
      unfold commitAll
      rw [happ]
      exact hmid1
    | error e => rw [happ] at hok; cases hok

/-- A successful compare-and-swap leaves every other cell unchanged. -/
theorem applyAssignment_frame (cells h : Cells) (r : RefAssignment)
    (hok : applyAssignment cells r = Except.ok h) (a : Nat) (ha : a ≠ r.from_) :
    h a = cells a := by
  unfold applyAssignment at hok
  by_cases hz : cells r.from_ = 0
  · rw [if_pos hz] at hok
    cases hok
    simp [ha]
  · rw [if_neg hz] at hok
    cases hok

/-! ## Claim theorems -/

/-- C1: the spec says each queue entry records the cell's address and the
resolved address of the target object. The code instead records the value
loaded from the cell being assigned (`to: self.ptr.load(...)`): setting
the unset cell at address 10 to the handle of the object at address 4
pushes the entry `{from: 10, to: 0}`, whose `to` field is the cell's own
null pointer, not the target's address 4. -/
theorem set_records_self_pointer_not_target :
    (Ref.set (fun _ => 0) 10 ⟨4⟩ { assignments := [] }).assignments
      = [{ from_ := 10, to_ := 0 }]
    ∧ ({ from_ := 10, to_ := 0 } : RefAssignment).to_ ≠ (⟨4⟩ : BuilderRefM).ptr := by
  exact ⟨rfl, by decide⟩

/-- C2: in the crate's own `basic_test` scenario (three objects wired
into a cycle by six `set` calls, then frozen), the claim — and the test's
assertions — expect `x.a` to dereference to `y` (id 1) and all six cells
to hold their assigned targets. Because `Ref::set` records the cell's own
null pointer as the value to commit, the session ends without a panic,
all six cells (addresses 2, 3, 5, 6, 8, 9) still hold null, no object
lives at the null address, and `x.a.id` is unreadable (`none`), so the
test's first assertion `x.a.id == 1` fails. -/
theorem basic_test_cycle_fails :
    basicXaId = none
    ∧ basicCellAfter 2 = some 0 ∧ basicCellAfter 3 = some 0
    ∧ basicCellAfter 5 = some 0 ∧ basicCellAfter 6 = some 0
    ∧ basicCellAfter 8 = some 0 ∧ basicCellAfter 9 = some 0
    ∧ basicSession.2.objs 0 = none := by
  refine ⟨rfl, rfl, rfl, rfl, rfl, rfl, rfl, rfl⟩

/-- C3: the claim says setting one cell twice in a session must trigger
the fatal double-assignment panic when the second queued assignment is
applied. In the double-set session, both queued entries carry `to = 0`
(the cell's own null pointer), so both compare-and-swaps succeed
trivially: the drop returns without panicking and the cell silently
remains null — holding neither the first target (address 4) nor the
second (address 7). The final conjunct shows the claim matches the
code's evident intent: running the same drop loop on the two entries the
spec says should have been queued (`to` = the two target addresses)
does raise the re-set panic on the second one. -/
theorem double_set_not_detected :
    doubleSetSession.builder.assignments
        = [{ from_ := 2, to_ := 0 }, { from_ := 2, to_ := 0 }]
    ∧ doubleSetCellAfter = some 0
    ∧ commitAll [{ from_ := 2, to_ := 4 }, { from_ := 2, to_ := 7 }]
        doubleSetSession.cells
      = Except.error "Attempt to re-set a Ref that has already been set." := by
  refine ⟨rfl, rfl, rfl⟩

/-- C4 counterexample: the claim says dereferencing a never-set cell
triggers the unbound-dereference violation and never yields a
null/default object. The source's `Deref` impl transmutes the loaded
pointer with no check: dereferencing the never-set cell at address 7
yields exactly the null address 0 — at which no object exists — and no
violation is raised anywhere (the dereference is a total operation with
no failure path). -/
theorem deref_unbound_returns_null :
    Ref.derefAddr (fun _ => 0) 7 = 0
    ∧ Ref.derefObj (fun _ => none) (fun _ => 0) 7 = none :=
  ⟨rfl, rfl⟩

/-- C4 amended: dereferencing a never-set cell performs no check: it
returns the stored null pointer (address 0), at which no object exists;
the code contains no unbound-dereference violation. -/
theorem deref_unbound_yields_null_address (cells : Cells) (objs : Objs) (a : Nat)
    (hcell : cells a = 0) (hnull : objs 0 = none) :
    Ref.derefAddr cells a = 0 ∧ Ref.derefObj objs cells a = none := by
  unfold Ref.derefObj Ref.derefAddr
  rw [hcell, hnull]
  exact ⟨rfl, rfl⟩

/-- C4 witness: the amended statement at the all-null store and empty
object heap, cell address 3. -/
theorem deref_unbound_yields_null_address_witness :
    Ref.derefAddr (fun _ => 0) 3 = 0
    ∧ Ref.derefObj (fun _ => none) (fun _ => 0) 3 = none :=
  deref_unbound_yields_null_address (fun _ => 0) (fun _ => none) 3 rfl rfl

/-- The all-null cell store (every cell word reads as the null pointer). -/
def zeroCells : Cells := fun _ => 0

/-- A sample session function used by witnesses: returns 42 and issues a
single `set` of the cell at address 10 to the handle of address 4. -/
def sampleSessionFn (b : BuilderState) : Nat × BuilderState :=
  (42, Ref.set zeroCells 10 ⟨4⟩ b)

/-- The cell store produced by committing `sampleSessionFn`'s one queued
assignment over the all-null store. -/
def sampleFinal : Cells := fun q => if q = 10 then 0 else zeroCells q

/-- C5: `Arena::build` drops the builder — draining the whole deferred
queue through the commit loop — before returning, and the value it
returns is exactly the session function's result: whenever `build`
returns normally, its result pairs the session function's return value
with the cell store produced by the full `Builder::drop` commit. -/
theorem build_commits_before_return {R : Type} (f : BuilderState → R × BuilderState)
    (cells : Cells) (r : R) (h : Cells)
    (hok : Arena.build cells f = Except.ok (r, h)) :
    r = (f { assignments := [] }).1
    ∧ Builder.drop (f { assignments := [] }).2 cells = Except.ok h := by
  simp only [Arena.build] at hok
  cases hdrop : Builder.drop (f { assignments := [] }).2 cells with
  | ok c =>
    rw [hdrop] at hok
    simp only [Except.ok.injEq, Prod.mk.injEq] at hok
    exact ⟨hok.1.symm, by rw [hok.2]⟩
  | error e =>
    rw [hdrop] at hok
    cases hok

/-- C5 witness: the theorem applied to `sampleSessionFn` over the
all-null store. -/
theorem build_commits_before_return_witness :
    (42 : Nat) = (sampleSessionFn { assignments := [] }).1
    ∧ Builder.drop (sampleSessionFn { assignments := [] }).2 zeroCells
        = Except.ok sampleFinal :=
  build_commits_before_return sampleSessionFn zeroCells 42 sampleFinal rfl

/-- C6: `Builder::freeze` returns a `Ref` whose pointer equals the
handle's pointer, dereferencing the frozen reference reads exactly the
object at the handle's address, and the freeze step leaves the entire
session state (object heap, cell store, queue, bump pointer) unchanged —
the transition is purely logical, no data is copied or moved. -/
theorem freeze_same_address :
    ∀ (t : BuilderRefM) (objs : Objs) (st : SessionState),
      (Builder.freeze t).ptr = t.ptr
      ∧ RefM.derefObj objs (Builder.freeze t) = objs t.ptr
      ∧ stepOp (SessionOp.opFreeze t) st = st :=
  fun _ _ _ => ⟨rfl, rfl, rfl⟩

/-- C7 counterexample: the claim says `set` accepts a Frozen Reference as
its target; the source's one and only `set` signature takes
`&BuilderRef`, so a frozen-reference target has no applicable operation:
at the concrete frozen reference to address 4 there is nothing to queue. -/
theorem set_rejects_frozen_target :
    Ref.setOnTarget (fun _ => 0) 10 (SetTarget.frozen ⟨4⟩) { assignments := [] }
      = none :=
  rfl

/-- C7 amended: `set` accepts only a Construction Handle as its target,
and the call queues exactly one deferred assignment onto the session
builder's queue; there is no `set` operation taking a Frozen Reference. -/
theorem set_accepts_only_handles :
    ∀ (cells : Cells) (a : Nat) (h : BuilderRefM) (r : RefM) (b : BuilderState),
      Ref.setOnTarget cells a (SetTarget.handle h) b
        = some { assignments := b.assignments ++ [⟨a, cells a⟩] }
      ∧ Ref.setOnTarget cells a (SetTarget.frozen r) b = none :=
  fun _ _ _ _ _ => ⟨rfl, rfl⟩

/-- C8: within one session the queue holds one entry per `set` call, in
exactly the order the calls were issued (the `SmallVec` push order), and
when the closing `Builder::drop` returns normally the entire queue has
been committed: every split of the queue into a prefix and a suffix
commits sequentially through an intermediate store to the final one. -/
theorem sets_queued_in_order_and_committed (cells : Cells)
    (ops : List (Nat × BuilderRefM)) (b : BuilderState) :
    (performSets cells ops b).assignments
        = b.assignments ++ ops.map (fun p => ⟨p.1, cells p.1⟩)
    ∧ ∀ (h : Cells), Builder.drop (performSets cells ops b) cells = Except.ok h →
        ∀ pre post, (performSets cells ops b).assignments = pre ++ post →
          ∃ mid, commitAll pre cells = Except.ok mid
            ∧ commitAll post mid = Except.ok h := by
  constructor
  · induction ops generalizing b with
    | nil => simp [performSets]
    | cons p rest ih =>
      obtain ⟨c, hh⟩ := p
      show (performSets cells rest (Ref.set cells c hh b)).assignments = _
      rw [ih (Ref.set cells c hh b)]
      simp [Ref.set]
  · intro h hdrop pre post hsplit
    unfold Builder.drop at hdrop
    rw [hsplit] at hdrop
    exact commitAll_append_ok pre post cells h hdrop

/-- The two-set call sequence used by the C8 witness. -/
def sampleOps : List (Nat × BuilderRefM) := [(10, ⟨4⟩), (11, ⟨4⟩)]

/-- The cell store produced by committing the two queued entries of
`sampleOps` over the all-null store. -/
def sampleFinal2 : Cells := fun q => if q = 11 then 0 else if q = 10 then 0 else 0

/-- C8 witness: the theorem applied to the concrete two-call session
`sampleOps` over the all-null store, split between the two entries. -/
theorem sets_queued_in_order_and_committed_witness :
    ∃ mid, commitAll [⟨10, 0⟩] zeroCells = Except.ok mid
      ∧ commitAll [⟨11, 0⟩] mid = Except.ok sampleFinal2 :=
  (sets_queued_in_order_and_committed zeroCells sampleOps { assignments := [] }).2
    sampleFinal2 rfl [⟨10, 0⟩] [⟨11, 0⟩] rfl

/-- C9: cloning a cell duplicates its binding state whatever it is —
after cloning the cell at `c`, holding any pointer value (null if
unbound, the bound target's address otherwise), to fresh addresses `c1`
and `c2`, both clones hold exactly the original's pointer value — but no
identity is shared: committing an assignment to the original leaves both
clones untouched, and, when the original was unbound at clone time,
committing assignments binding the two clones to targets `t1` and `t2`
(different or not) succeeds, binds each clone to its own target, and
leaves the original cell unchanged. -/
theorem clone_duplicates_state_no_identity (cells : Cells) (c c1 c2 t1 t2 : Nat)
    (h1 : c1 ≠ c) (h2 : c2 ≠ c) (h12 : c1 ≠ c2) :
    Ref.clone (Ref.clone cells c c1) c c2 c1 = cells c
    ∧ Ref.clone (Ref.clone cells c c1) c c2 c2 = cells c
    ∧ Ref.clone (Ref.clone cells c c1) c c2 c = cells c
    ∧ (∀ (t : Nat) (h' : Cells),
        applyAssignment (Ref.clone (Ref.clone cells c c1) c c2) ⟨c, t⟩
            = Except.ok h' →
        h' c1 = cells c ∧ h' c2 = cells c)
    ∧ (cells c = 0 →
        ∃ h, commitAll [⟨c1, t1⟩, ⟨c2, t2⟩] (Ref.clone (Ref.clone cells c c1) c c2)
            = Except.ok h
          ∧ h c1 = t1 ∧ h c2 = t2 ∧ h c = cells c) := by
  have hcc1 : Ref.clone (Ref.clone cells c c1) c c2 c1 = cells c := by
    simp [Ref.clone, h12]
  have hcc2 : Ref.clone (Ref.clone cells c c1) c c2 c2 = cells c := by
    simp [Ref.clone]
  have hccc : Ref.clone (Ref.clone cells c c1) c c2 c = cells c := by
    simp [Ref.clone, (Ne.symm h2)]
  refine ⟨hcc1, hcc2, hccc, ?_, ?_⟩
  · intro t h' happ
    constructor
    · rw [applyAssignment_frame _ _ _ happ c1 h1]
      exact hcc1
    · rw [applyAssignment_frame _ _ _ happ c2 h2]
      exact hcc2
  · intro hc
    have s1 : applyAssignment (Ref.clone (Ref.clone cells c c1) c c2) ⟨c1, t1⟩
        = Except.ok (fun q => if q = c1 then t1
            else Ref.clone (Ref.clone cells c c1) c c2 q) := by
      unfold applyAssignment
      simp [hcc1, hc]
    have s2 : applyAssignment (fun q => if q = c1 then t1
          else Ref.clone (Ref.clone cells c c1) c c2 q) ⟨c2, t2⟩
        = Except.ok (fun q => if q = c2 then t2 else if q = c1 then t1
            else Ref.clone (Ref.clone cells c c1) c c2 q) := by
      unfold applyAssignment
      simp [(Ne.symm h12), hcc2, hc]
    refine ⟨fun q => if q = c2 then t2 else if q = c1 then t1
        else Ref.clone (Ref.clone cells c c1) c c2 q, ?_, ?_, ?_, ?_⟩
    · show commitAll _ _ = _
      unfold commitAll
      rw [s1]
      unfold commitAll
      rw [s2]
      rfl
    · simp [h12]
    · simp
    · simp [(Ne.symm h2), (Ne.symm h1), hccc]

/-- A cell store whose cell at address 1 is bound to the object at
address 9, all other cells unbound; exercises the bound-cell case of
cloning. -/
def boundCells : Cells := fun q => if q = 1 then 9 else 0

/-- C9 witness: the theorem applied twice at concrete inputs — once to a
store whose original cell (address 1) is bound to address 9, showing both
clones (at 2 and 3) duplicate that bound target address, and once to the
all-null store with the clones subsequently committed to the different
targets 5 and 6. -/
theorem clone_duplicates_state_no_identity_witness :
    (Ref.clone (Ref.clone boundCells 1 2) 1 3 2 = 9
      ∧ Ref.clone (Ref.clone boundCells 1 2) 1 3 3 = 9)
    ∧ Ref.clone (Ref.clone zeroCells 1 2) 1 3 2 = zeroCells 1
    ∧ Ref.clone (Ref.clone zeroCells 1 2) 1 3 3 = zeroCells 1
    ∧ Ref.clone (Ref.clone zeroCells 1 2) 1 3 1 = zeroCells 1
    ∧ (∀ (t : Nat) (h' : Cells),
        applyAssignment (Ref.clone (Ref.clone zeroCells 1 2) 1 3) ⟨1, t⟩
            = Except.ok h' →
        h' 2 = zeroCells 1 ∧ h' 3 = zeroCells 1)
    ∧ ∃ h, commitAll [⟨2, 5⟩, ⟨3, 6⟩] (Ref.clone (Ref.clone zeroCells 1 2) 1 3)
          = Except.ok h
        ∧ h 2 = 5 ∧ h 3 = 6 ∧ h 1 = zeroCells 1 :=
  have bound := clone_duplicates_state_no_identity boundCells 1 2 3 5 6
    (by decide) (by decide) (by decide)
  have main := clone_duplicates_state_no_identity zeroCells 1 2 3 5 6
    (by decide) (by decide) (by decide)
  ⟨⟨bound.1, bound.2.1⟩, main.1, main.2.1, main.2.2.1, main.2.2.2.1,
    main.2.2.2.2 rfl⟩

/-- C10: no in-session operation writes an existing cell's stored
pointer: every session step (allocation, `set`, freeze) leaves every
already-allocated cell word unchanged, and a `set` call in particular
changes neither the cell store nor the object heap at all — the queue is
the only thing it touches; writes to cells happen only in the
`Builder::drop` commit. -/
theorem set_no_write_frame (st : SessionState) (op : SessionOp) (a : Nat)
    (ha : a < st.nextAddr) :
    (stepOp op st).cells a = st.cells a
    ∧ ∀ (cellAddr : Nat) (h : BuilderRefM),
        (stepOp (SessionOp.opSet cellAddr h) st).cells = st.cells
        ∧ (stepOp (SessionOp.opSet cellAddr h) st).objs = st.objs := by
  constructor
  · cases op with
    | opNew id =>
      show (allocBasic id st).2.cells a = st.cells a
      unfold allocBasic
      simp only
      rw [if_neg (by omega), if_neg (by omega)]
    | opSet cellAddr h => rfl
    | opFreeze h => rfl
  · intro cellAddr h
    exact ⟨rfl, rfl⟩

/-- C10 witness: the theorem at the initial session state, allocating one
object, observing the (null) cell word at address 0. -/
theorem set_no_write_frame_witness :
    (stepOp (SessionOp.opNew 5) initialSession).cells 0 = initialSession.cells 0
    ∧ ∀ (cellAddr : Nat) (h : BuilderRefM),
        (stepOp (SessionOp.opSet cellAddr h) initialSession).cells
            = initialSession.cells
        ∧ (stepOp (SessionOp.opSet cellAddr h) initialSession).objs
            = initialSession.objs :=
  set_no_write_frame initialSession (SessionOp.opNew 5) 0 (by decide)
